import Mathlib

/-!
Shallow embedding of the authentication core of the repository
(src/services/auth.py, src/repository/users.py, src/services/users.py,
src/api/auth.py, src/services/email.py, src/database/models.py,
src/conf/config.py), together with theorems settling the frozen claims.

Time is modelled as UTC epoch seconds (Nat).  JWTs are modelled as their
claim sets plus the secret they were signed with; python-jose decoding
checks the signature and the expiry claim.  The relational store is a list
of user rows; SQLAlchemy lookups by a unique column become first-match
searches.  The Redis session cache is a list of keyed entries with absolute
expiry instants.  Python exceptions become an error type returned through
Except.
-/

namespace PythonFinal

/-- Roles, from UserRole in src/database/models.py. -/
inductive UserRole where
  | user
  | admin
deriving DecidableEq, Repr

/-- Python exceptions observable from the auth core: fastapi HTTPException
with a status code and detail string, the passlib UnknownHashError raised
by CryptContext.verify on a hash no configured scheme identifies, the
ValueError family passlib raises on a hash it identifies but cannot parse
(malformed cost field, bad salt or checksum, the refused 2x ident, a
missing digest), an AttributeError raised when an attribute of None is
accessed, and the error raised by jsonpickle.decode on input it cannot
reconstruct. -/
inductive PyError where
  | httpException (statusCode : Nat) (detail : String)
  | unknownHashError
  | valueError
  | attributeError (attr : String)
  | deserializationError
deriving DecidableEq, Repr

/-- The module-level credentials_exception of src/services/auth.py:
HTTP 401 with detail "Could not validate credentials". -/
def credentials_exception : PyError :=
  .httpException 401 "Could not validate credentials"

/-- A JWT, modelled by its claim set plus the secret used to sign it.
The sub claim is optional because the code checks payload sub against
None; token_type is the custom kind claim, absent when the issuing dict
never set it.  iat and exp are UTC epoch seconds. -/
structure Token where
  sub : Option String
  iat : Nat
  exp : Nat
  token_type : Option String
  sig : String
deriving DecidableEq, Repr

/-- Failures of jose jwt.decode relevant here; both are subclasses of
JWTError in python-jose. -/
inductive JWTError where
  | invalidSignature
  | expiredSignature
deriving DecidableEq, Repr

/-- Model of jose jwt.decode(token, secret, algorithms): verifies the
signature (here: the token was signed with the same secret) and the exp
claim, then returns the payload unchanged.  A token is expired once the
clock is past its exp instant. -/
def jwtDecode (tok : Token) (secret : String) (now : Nat) : Except JWTError Token :=
  if tok.sig ≠ secret then .error .invalidSignature
  else if tok.exp < now then .error .expiredSignature
  else .ok tok

/-- The settings fields the auth core reads, from src/conf/config.py,
with that file's defaults for the two expiry windows. -/
structure Settings where
  JWT_SECRET : String
  JWT_EXPIRATION_SECONDS : Nat
  REFRESH_TOKEN_EXPIRATION_SECONDS : Nat
deriving DecidableEq, Repr

/-- create_access_token of src/services/auth.py: copies the data dict
(here: its sub entry), computes expiry from expires_delta when that is
truthy (a Python falsy 0 falls back to the default) or from
settings.JWT_EXPIRATION_SECONDS, and adds exp, iat and token_type access
before signing. -/
def create_access_token (s : Settings) (now : Nat) (data_sub : Option String)
    (expires_delta : Option Nat) : Token :=
  let expire :=
    match expires_delta with
    | some d => if d ≠ 0 then now + d else now + s.JWT_EXPIRATION_SECONDS
    | none => now + s.JWT_EXPIRATION_SECONDS
  { sub := data_sub, iat := now, exp := expire,
    token_type := some "access", sig := s.JWT_SECRET }

/-- create_refresh_token of src/services/auth.py: as create_access_token
but with the REFRESH_TOKEN_EXPIRATION_SECONDS default and token_type
refresh. -/
def create_refresh_token (s : Settings) (now : Nat) (data_sub : Option String)
    (expires_delta : Option Nat) : Token :=
  let expire :=
    match expires_delta with
    | some d => if d ≠ 0 then now + d else now + s.REFRESH_TOKEN_EXPIRATION_SECONDS
    | none => now + s.REFRESH_TOKEN_EXPIRATION_SECONDS
  { sub := data_sub, iat := now, exp := expire,
    token_type := some "refresh", sig := s.JWT_SECRET }

/-- create_email_token of src/services/auth.py: copies the data dict
(sub and token_type entries, the latter none when the dict never set one),
adds iat now and exp seven days out, and signs.  Note the function itself
adds no token_type entry. -/
def create_email_token (s : Settings) (now : Nat) (data_sub : Option String)
    (data_token_type : Option String) : Token :=
  { sub := data_sub, iat := now, exp := now + 7 * 24 * 60 * 60,
    token_type := data_token_type, sig := s.JWT_SECRET }

/-- The email-verification token exactly as send_email of
src/services/email.py issues it: create_email_token on the dict holding
only the sub entry. -/
def email_verification_token (s : Settings) (now : Nat) (email : String) : Token :=
  create_email_token s now (some email) none

/-- A users-table row, from the User model of src/database/models.py.
The refresh_token column is nullable; stored tokens are compared with the
presented token string byte-for-byte, which in this embedding is equality
of the Token value. -/
structure User where
  id : Nat
  email : String
  username : String
  hashed_password : String
  created_at : Nat
  avatar : Option String
  confirmed : Bool
  role : UserRole
  refresh_token : Option Token
deriving DecidableEq, Repr

/-- The users table. The email and username columns carry unique
constraints in the model. -/
abbrev UsersDb := List User

/-- UserRepository.get_user_by_username (reached through
UserService.get_user_by_username): select filtered by username,
scalar_one_or_none.  Modelled as first match in the table. -/
def get_user_by_username (db : UsersDb) (username : String) : Option User :=
  db.find? (fun u => u.username == username)

/-- UserRepository.get_user_by_email: select filtered by email,
scalar_one_or_none.  Modelled as first match in the table. -/
def get_user_by_email (db : UsersDb) (email : String) : Option User :=
  db.find? (fun u => u.email == email)

/-- Mutation of the row found by email: sets its refresh_token column.
Only the first matching row changes, mirroring the single ORM object
mutated by UserRepository.update_refresh_token. -/
def setUserRefreshToken : UsersDb → String → Token → UsersDb
  | [], _, _ => []
  | u :: rest, email, tok =>
    if u.email == email then { u with refresh_token := some tok } :: rest
    else u :: setUserRefreshToken rest email tok

/-- UserRepository.update_refresh_token: fetches the user by email and
assigns the refresh_token attribute, then commits.  A missing user makes
the attribute assignment on None raise AttributeError. -/
def update_refresh_token (db : UsersDb) (email : String) (tok : Token) :
    Except PyError UsersDb :=
  match get_user_by_email db email with
  | none => .error (.attributeError "refresh_token")
  | some _ => .ok (setUserRefreshToken db email tok)

/-- Mutation of the row found by email: sets its hashed_password column. -/
def setUserHashedPassword : UsersDb → String → String → UsersDb
  | [], _, _ => []
  | u :: rest, email, hp =>
    if u.email == email then { u with hashed_password := hp } :: rest
    else u :: setUserHashedPassword rest email hp

/-- UserRepository.update_hashed_password: fetches the user by email and
assigns the hashed_password attribute, then commits. -/
def update_hashed_password (db : UsersDb) (email : String) (hp : String) :
    Except PyError UsersDb :=
  match get_user_by_email db email with
  | none => .error (.attributeError "hashed_password")
  | some _ => .ok (setUserHashedPassword db email hp)

/-- verify_refresh_token of src/services/auth.py: decode the token
(JWTError becomes credentials_exception), reject a missing sub, reject a
token_type other than refresh, fetch the user by username, then compare
the stored refresh token with the presented one.  The code reads
user.refresh_token without checking the lookup for None, so an absent
user raises AttributeError rather than credentials_exception. -/
def verify_refresh_token (db : UsersDb) (s : Settings) (now : Nat)
    (refresh_token : Token) : Except PyError User :=
  match jwtDecode refresh_token s.JWT_SECRET now with
  | .error _ => .error credentials_exception
  | .ok payload =>
    match payload.sub with
    | none => .error credentials_exception
    | some username =>
      if payload.token_type ≠ some "refresh" then .error credentials_exception
      else
        match get_user_by_username db username with
        | none => .error (.attributeError "refresh_token")
        | some user =>
          if user.refresh_token ≠ some refresh_token then .error credentials_exception
          else .ok user

/-- A value stored in the Redis cache by the auth core: either the
jsonpickle encoding of a user row (which jsonpickle.decode reconstructs
exactly), or bytes jsonpickle cannot reconstruct. -/
inductive CachedJson where
  | userRepr (u : User)
  | malformed (raw : String)
deriving DecidableEq, Repr

/-- serialize_user of src/services/auth.py: jsonpickle.encode of the
user row. -/
def serialize_user (u : User) : CachedJson := .userRepr u

/-- deserialize_user of src/services/auth.py: jsonpickle.decode, which
reconstructs the encoded user and raises on input it cannot decode. -/
def deserialize_user : CachedJson → Except PyError User
  | .userRepr u => .ok u
  | .malformed _ => .error .deserializationError

/-- One Redis entry: key, value and the absolute instant at which the key
expires (set by r.expire). -/
structure CacheEntry where
  key : String
  val : CachedJson
  expireAt : Nat
deriving DecidableEq, Repr

/-- The Redis cache state. -/
abbrev Cache := List CacheEntry

/-- r.get: the value under the key, none once the key has expired. -/
def cacheGet (c : Cache) (now : Nat) (k : String) : Option CachedJson :=
  match c.find? (fun e => e.key == k) with
  | some e => if now < e.expireAt then some e.val else none
  | none => none

/-- r.set followed by r.expire ttl: overwrites any entry under the key
and arms its expiry. -/
def cacheSet (c : Cache) (k : String) (v : CachedJson) (expireAt : Nat) : Cache :=
  ⟨k, v, expireAt⟩ :: c.filter (fun e => !(e.key == k))

/-- Decidable equality on Except, needed to evaluate statements about
call outcomes on concrete inputs. -/
instance {ε α : Type} [DecidableEq ε] [DecidableEq α] : DecidableEq (Except ε α)
  | .ok a, .ok b =>
    if h : a = b then .isTrue (by rw [h])
    else .isFalse (by intro hc; cases hc; exact h rfl)
  | .ok _, .error _ => .isFalse (by intro hc; cases hc)
  | .error _, .ok _ => .isFalse (by intro hc; cases hc)
  | .error e, .error f =>
    if h : e = f then .isTrue (by rw [h])
    else .isFalse (by intro hc; cases hc; exact h rfl)

/-- Observable outcome of one get_current_user call: the returned user or
raised error, how many store lookups ran, which cache writes ran (key,
value, ttl seconds), and the cache state afterwards. -/
structure GcuOut where
  result : Except PyError User
  storeLookups : Nat
  cachePuts : List (String × CachedJson × Nat)
  cache : Cache
deriving DecidableEq, Repr

/-- get_current_user of src/services/auth.py: decode the bearer token
(JWTError or a null sub become credentials_exception), consult the cache
under the sub; on a hit pass the cached bytes to deserialize_user with no
error handling, so a failing decode propagates; on a miss fetch the user
from the store (credentials_exception when absent), then r.set and
r.expire 3600 before returning. -/
def get_current_user (db : UsersDb) (cache : Cache) (s : Settings) (now : Nat)
    (token : Token) : GcuOut :=
  match jwtDecode token s.JWT_SECRET now with
  | .error _ => ⟨.error credentials_exception, 0, [], cache⟩
  | .ok payload =>
    match payload.sub with
    | none => ⟨.error credentials_exception, 0, [], cache⟩
    | some username =>
      match cacheGet cache now username with
      | none =>
        match get_user_by_username db username with
        | none => ⟨.error credentials_exception, 1, [], cache⟩
        | some user =>
          ⟨.ok user, 1, [(username, serialize_user user, 3600)],
            cacheSet cache username (serialize_user user) (now + 3600)⟩
      | some user_json =>
        match deserialize_user user_json with
        | .error e => ⟨.error e, 0, [], cache⟩
        | .ok user => ⟨.ok user, 0, [], cache⟩

/-- get_current_admin_user of src/services/auth.py: HTTP 403 unless the
resolved user's role is admin. -/
def get_current_admin_user (current_user : User) : Except PyError User :=
  if current_user.role ≠ UserRole.admin then
    .error (.httpException 403 "User does not have enough permissions")
  else .ok current_user

/-- Whether the second character list starts with the first. -/
def charsStartWith : List Char → List Char → Bool
  | [], _ => true
  | _ :: _, [] => false
  | c :: cs, d :: ds => c == d && charsStartWith cs ds

/-- The base-64 alphabet bcrypt uses for its salt and checksum fields. -/
def bcrypt64 : List Char :=
  "./ABCDEFGHIJKLMNOPQRSTUVWXYZabcdefghijklmnopqrstuvwxyz0123456789".data

/-- Model of passlib identify for the configured bcrypt scheme: the
bcrypt handler identifies a hash by the idents 2, 2a, 2b, 2x and 2y. -/
def bcrypt_identified (hashed : String) : Bool :=
  charsStartWith "$2$".data hashed.data
    || charsStartWith "$2a$".data hashed.data
    || charsStartWith "$2b$".data hashed.data
    || charsStartWith "$2x$".data hashed.data
    || charsStartWith "$2y$".data hashed.data

/-- Model of passlib parsing an identified bcrypt hash (from_string plus
the field checks): the 2x ident is refused outright; after the ident the
hash must carry a two-digit cost field within the 4..31 bcrypt range, a
separator, then a 22-character salt and a 31-character checksum over the
bcrypt alphabet.  Everything else raises the ValueError family
(malformed cost, bad salt or checksum, missing digest). -/
def bcrypt_parses (hashed : String) : Bool :=
  let cs := hashed.data
  if charsStartWith "$2x$".data cs then false
  else
    let tail := if charsStartWith "$2$".data cs then cs.drop 3 else cs.drop 4
    match tail with
    | d1 :: d2 :: '$' :: rest =>
      d1.isDigit && d2.isDigit
        && (let rounds := (d1.toNat - 48) * 10 + (d2.toNat - 48)
            Nat.ble 4 rounds && Nat.ble rounds 31)
        && rest.length == 53
        && rest.all (fun c => bcrypt64.contains c)
    | _ => false

namespace Hash

/-- Hash.verify_password of src/services/auth.py: returns
pwd_context.verify(plain, hashed) directly, and the method adds no
handling of its own.  CryptContext.verify raises UnknownHashError when
no configured scheme identifies the hash; an identified hash that fails
to parse as a bcrypt hash raises the ValueError family; only a
well-formed bcrypt hash yields the bcrypt verdict (here the
uninterpreted bcryptCheck). -/
def verify_password (bcryptCheck : String → String → Bool)
    (plain_password hashed_password : String) : Except PyError Bool :=
  if ¬ bcrypt_identified hashed_password then .error .unknownHashError
  else if ¬ bcrypt_parses hashed_password then .error .valueError
  else .ok (bcryptCheck plain_password hashed_password)

end Hash

/-- string.ascii_lowercase. -/
def ascii_lowercase : List Char := "abcdefghijklmnopqrstuvwxyz".data

/-- string.ascii_uppercase. -/
def ascii_uppercase : List Char := "ABCDEFGHIJKLMNOPQRSTUVWXYZ".data

/-- string.digits. -/
def ascii_digits : List Char := "0123456789".data

/-- The special-character pool used by generate_temp_password. -/
def temp_symbols : List Char := "@$!%*?&".data

/-- generate_temp_password of src/services/auth.py.  The randomness is
passed in: whether pytest is loaded in sys.modules, the four
random.choice draws (one per character class), the six random.choices
draws from letters, digits and the symbol pool, and the random.shuffle
as a function on the assembled list.  Under pytest the fixed string is
returned before any drawing. -/
def generate_temp_password (pytestLoaded : Bool)
    (lower upper digit symbol : Char) (other_chars : List Char)
    (shuffle : List Char → List Char) : String :=
  if pytestLoaded then "TestTest2!"
  else String.mk (shuffle ([lower, upper, digit, symbol] ++ other_chars))

/-- A background task handed to fastapi BackgroundTasks by the auth
endpoints: a password-reset email carrying the temporary password, or a
verification email carrying username and base URL. -/
inductive EmailTask where
  | resetPasswordEmail (email : String) (password : String)
  | verificationEmail (email : String) (username : String) (host : String)
deriving DecidableEq, Repr

/-- What an endpoint hands back on the success path: the JSON message,
the users table afterwards, and the background tasks scheduled. -/
structure EndpointResponse where
  message : String
  db : UsersDb
  tasks : List EmailTask
deriving DecidableEq, Repr

/-- forget_password of src/api/auth.py.  The generated temporary
password and the salted hash function are inputs here since both are
drawn outside this control flow.  A registered unconfirmed address
raises HTTP 401; a registered confirmed address gets its password
rehashed and a reset email scheduled; in the remaining cases nothing
happens; the fixed message is returned whenever nothing raised. -/
def forget_password (db : UsersDb) (hashPw : String → String)
    (generated_password : String) (email : String) : Except PyError EndpointResponse :=
  match get_user_by_email db email with
  | some user =>
    if ¬ user.confirmed then
      .error (.httpException 401 "Email is not confirmed")
    else
      match update_hashed_password db email (hashPw generated_password) with
      | .error e => .error e
      | .ok db2 =>
        .ok ⟨"If this user exists in our database, we have sent them an email with temporary password",
          db2, [.resetPasswordEmail email generated_password]⟩
  | none =>
    .ok ⟨"If this user exists in our database, we have sent them an email with temporary password",
      db, []⟩

/-- request_email of src/api/auth.py: a registered confirmed address
raises HTTP 400; a registered unconfirmed address gets a verification
email scheduled; the fixed message is returned whenever nothing
raised. -/
def request_email (db : UsersDb) (host : String) (email : String) :
    Except PyError EndpointResponse :=
  match get_user_by_email db email with
  | some user =>
    if user.confirmed then
      .error (.httpException 400 "Email is already confirmed")
    else
      .ok ⟨"If this user exists in our database, we have sent them a confirmation email",
        db, [.verificationEmail user.email user.username host]⟩
  | none =>
    .ok ⟨"If this user exists in our database, we have sent them a confirmation email",
      db, []⟩

/-- The observable HTTP response of an endpoint call: its raised error,
or its success message (scheduled background work and table writes are
not part of the response body the caller sees). -/
def responseMessage : Except PyError EndpointResponse → Except PyError String :=
  Except.map EndpointResponse.message

/-- The TokenModel response schema of the login and refresh endpoints. -/
structure TokenModel where
  access_token : Token
  refresh_token : Token
  token_type : String
deriving DecidableEq, Repr

/-- new_token, the refresh-token endpoint of src/api/auth.py: validate
the presented refresh token through verify_refresh_token (whose raised
errors propagate; its None branch is dead since the function never
returns None), then answer with a fresh access token for the verified
user's username and the very refresh token presented.  The users table
is passed through untouched: the handler performs no write. -/
def new_token (db : UsersDb) (s : Settings) (now : Nat) (refresh_token : Token) :
    Except PyError (TokenModel × UsersDb) :=
  match verify_refresh_token db s now refresh_token with
  | .error e => .error e
  | .ok user =>
    .ok (⟨create_access_token s now (some user.username) none, refresh_token, "bearer"⟩, db)

/-! Concrete fixtures used by counterexamples and witnesses. -/

/-- A concrete settings value with the config defaults. -/
def exSettings : Settings :=
  { JWT_SECRET := "secret", JWT_EXPIRATION_SECONDS := 3600,
    REFRESH_TOKEN_EXPIRATION_SECONDS := 604800 }

/-- A confirmed user row. -/
def aliceUser : User :=
  { id := 1, email := "alice@example.com", username := "alice",
    hashed_password := "$2b$12$alicehash", created_at := 0, avatar := none,
    confirmed := true, role := .user, refresh_token := none }

/-- A second confirmed user row. -/
def bobUser : User :=
  { id := 2, email := "bob@example.com", username := "bob",
    hashed_password := "$2b$12$bobhash", created_at := 0, avatar := none,
    confirmed := true, role := .user, refresh_token := none }

/-- A registered but unconfirmed user row. -/
def carolUser : User :=
  { id := 3, email := "carol@example.com", username := "carol",
    hashed_password := "$2b$12$carolhash", created_at := 0, avatar := none,
    confirmed := false, role := .user, refresh_token := none }

/-- A registered and confirmed user row for the request_email case. -/
def daveUser : User :=
  { id := 4, email := "dave@example.com", username := "dave",
    hashed_password := "$2b$12$davehash", created_at := 0, avatar := none,
    confirmed := true, role := .user, refresh_token := none }

/-- A validly signed, unexpired refresh token whose subject names no user. -/
def ghostRefreshToken : Token :=
  { sub := some "ghost", iat := 0, exp := 604800,
    token_type := some "refresh", sig := "secret" }

/-- A validly signed, unexpired access token for bob. -/
def bobAccessToken : Token :=
  { sub := some "bob", iat := 0, exp := 3600,
    token_type := some "access", sig := "secret" }

/-- A validly signed, unexpired access token for alice. -/
def aliceAccessToken : Token :=
  { sub := some "alice", iat := 0, exp := 3600,
    token_type := some "access", sig := "secret" }

/-- The refresh token issued to alice by a first login. -/
def aliceRT1 : Token :=
  { sub := some "alice", iat := 0, exp := 604800,
    token_type := some "refresh", sig := "secret" }

/-- The refresh token issued to alice by a second login. -/
def aliceRT2 : Token :=
  { sub := some "alice", iat := 100, exp := 604900,
    token_type := some "refresh", sig := "secret" }

/-- The users table after the first login stored aliceRT1. -/
def aliceDb : UsersDb := [{ aliceUser with refresh_token := some aliceRT1 }]

/-- A cache whose entry for bob holds bytes jsonpickle cannot decode. -/
def junkCacheForBob : Cache := [⟨"bob", .malformed "garbage", 1000⟩]

/-- A cache whose entry for alice holds bytes jsonpickle cannot decode. -/
def junkCacheForAlice : Cache := [⟨"alice", .malformed "corrupted", 1000⟩]

/-- A cache whose entry for alice holds her serialized row. -/
def goodCacheForAlice : Cache := [⟨"alice", serialize_user aliceUser, 3600⟩]

end PythonFinal

namespace PythonFinal

/-! Theorems settling the claims. -/

/-- C3: the claim says a refresh-token validation whose decoded subject
names no user fails with Unauthenticated.  The code instead dereferences
refresh_token on the None returned by the lookup, raising AttributeError
(an HTTP 500), which is not the credentials_exception: verify_refresh_token
of src/services/auth.py never checks the lookup result for None, even
though its own return annotation and its caller treat None as possible.
This theorem evaluates the embedded code at the failing input. -/
theorem refresh_missing_user_raises_attribute_error :
    verify_refresh_token [aliceUser] exSettings 5 ghostRefreshToken
      = .error (.attributeError "refresh_token")
    ∧ (PyError.attributeError "refresh_token") ≠ credentials_exception := by
  decide

/-- C7 counterexample: the email-verification token issued by send_email
carries no token-kind tag at all, refuting the claim that it carries the
kind email-verify: create_email_token only adds iat and exp to the data
dict, and send_email passes a dict holding only sub. -/
theorem email_token_kind_tag_missing_cex :
    (email_verification_token exSettings 0 "alice@example.com").token_type = none
    ∧ (email_verification_token exSettings 0 "alice@example.com").token_type
        ≠ some "email-verify" := by
  decide

/-- C7 amended: every email-verification token is issued with a fixed
7-day expiry measured from its issue instant and carries subject and
issued-at claims, but no token-kind tag (its token_type claim is absent,
in particular not email-verify). -/
theorem email_token_seven_day_expiry_no_kind_tag (s : Settings) (now : Nat)
    (email : String) :
    (email_verification_token s now email).exp = now + 7 * 24 * 60 * 60
    ∧ (email_verification_token s now email).iat = now
    ∧ (email_verification_token s now email).sub = some email
    ∧ (email_verification_token s now email).token_type = none
    ∧ (email_verification_token s now email).sig = s.JWT_SECRET :=
  ⟨rfl, rfl, rfl, rfl, rfl⟩

/-- C5 counterexample: password verification on a malformed hash raises
(passlib UnknownHashError reaches the caller) instead of returning
false — Hash.verify_password returns pwd_context.verify directly with no
handling, refuting the claim that verify never throws on a malformed
hash. -/
theorem verify_password_malformed_throws_cex :
    Hash.verify_password (fun _ _ => false) "password123" "not-a-bcrypt-hash"
      = .error .unknownHashError
    ∧ Hash.verify_password (fun _ _ => false) "password123" "not-a-bcrypt-hash"
      ≠ .ok false := by
  decide

/-- C5 amended: for every plaintext, verification raises on a malformed
hash rather than returning false: a hash no bcrypt ident identifies
raises UnknownHashError, an identified hash that fails to parse as a
bcrypt hash raises the ValueError family, and only a well-formed bcrypt
hash returns the bcrypt verdict. -/
theorem verify_password_behavior (bcryptCheck : String → String → Bool)
    (plain hashed : String) :
    (bcrypt_identified hashed = false →
      Hash.verify_password bcryptCheck plain hashed = .error .unknownHashError)
    ∧ (bcrypt_identified hashed = true → bcrypt_parses hashed = false →
      Hash.verify_password bcryptCheck plain hashed = .error .valueError)
    ∧ (bcrypt_identified hashed = true → bcrypt_parses hashed = true →
      Hash.verify_password bcryptCheck plain hashed = .ok (bcryptCheck plain hashed)) := by
  refine ⟨?_, ?_, ?_⟩
  · intro h1
    simp [Hash.verify_password, h1]
  · intro h1 h2
    simp [Hash.verify_password, h1, h2]
  · intro h1 h2
    simp [Hash.verify_password, h1, h2]

/-- C5 amended, witness: the three branches at concrete inputs — an
unidentified hash, an ident-prefixed hash whose body does not parse, and
a well-formed bcrypt hash (cost 12, 22-character salt, 31-character
checksum). -/
theorem verify_password_behavior_witness :
    Hash.verify_password (fun _ _ => true) "pw" "plainly-wrong"
      = .error .unknownHashError
    ∧ Hash.verify_password (fun _ _ => true) "pw" "$2b$12$bobhash"
      = .error .valueError
    ∧ Hash.verify_password (fun _ _ => true) "pw"
        "$2b$12$abcdefghijklmnopqrstuvabcdefghijklmnopqrstuvwxyzABCDE" = .ok true :=
  ⟨(verify_password_behavior (fun _ _ => true) "pw" "plainly-wrong").1 (by decide),
   (verify_password_behavior (fun _ _ => true) "pw" "$2b$12$bobhash").2.1
      (by decide) (by decide),
   (verify_password_behavior (fun _ _ => true) "pw"
      "$2b$12$abcdefghijklmnopqrstuvabcdefghijklmnopqrstuvwxyzABCDE").2.2
      (by decide) (by decide)⟩

/-- C2 counterexample: with a valid access token for bob and a cache entry
for bob that fails to deserialize, get_current_user raises the
deserialization error with zero store lookups, while the very same call
on an empty cache (a genuine miss) succeeds with one store lookup — so a
failing cache entry is not treated as a cache miss and the call does
fail. -/
theorem cache_deserialize_failure_cex :
    get_current_user [bobUser] junkCacheForBob exSettings 10 bobAccessToken
      = ⟨.error .deserializationError, 0, [], junkCacheForBob⟩
    ∧ get_current_user [bobUser] [] exSettings 10 bobAccessToken
      = ⟨.ok bobUser, 1, [("bob", serialize_user bobUser, 3600)],
          [⟨"bob", serialize_user bobUser, 3610⟩]⟩ := by
  decide

/-- C2 amended: whenever the bearer token decodes with a subject and the
cache entry for the subject fails to deserialize, get_current_user
propagates the deserialization error with no store lookup, no cache
write and the cache unchanged: it does not fall back to the User Store. -/
theorem cache_deserialize_failure_propagates (db : UsersDb) (cache : Cache)
    (s : Settings) (now : Nat) (tok : Token) (uname raw : String)
    (hsig : tok.sig = s.JWT_SECRET) (hexp : ¬ tok.exp < now)
    (hsub : tok.sub = some uname)
    (hget : cacheGet cache now uname = some (.malformed raw)) :
    get_current_user db cache s now tok
      = ⟨.error .deserializationError, 0, [], cache⟩ := by
  simp [get_current_user, jwtDecode, hsig, hexp, hsub, hget, deserialize_user]

/-- Helper: a validly signed, unexpired refresh-kind token whose subject
resolves to a user whose stored refresh token differs from the presented
one is rejected with the credentials exception. -/
theorem verify_refresh_token_mismatch (db : UsersDb) (s : Settings) (now : Nat)
    (rt : Token) (uname : String) (user : User)
    (hsig : rt.sig = s.JWT_SECRET) (hexp : ¬ rt.exp < now)
    (hkind : rt.token_type = some "refresh") (hsub : rt.sub = some uname)
    (hfind : get_user_by_username db uname = some user)
    (hmis : user.refresh_token ≠ some rt) :
    verify_refresh_token db s now rt = .error credentials_exception := by
  simp [verify_refresh_token, jwtDecode, hsig, hexp, hsub, hkind, hfind, hmis]

/-- Helper: the username lookup steps through a cons cell. -/
theorem get_user_by_username_cons (v : User) (rest : UsersDb) (uname : String) :
    get_user_by_username (v :: rest) uname
      = if v.username == uname then some v else get_user_by_username rest uname := by
  by_cases h : (v.username == uname) = true
  · simp [get_user_by_username, h]
  · simp [get_user_by_username, h]

/-- Helper: the email lookup steps through a cons cell. -/
theorem get_user_by_email_cons (v : User) (rest : UsersDb) (email : String) :
    get_user_by_email (v :: rest) email
      = if v.email == email then some v else get_user_by_email rest email := by
  by_cases h : (v.email == email) = true
  · simp [get_user_by_email, h]
  · simp [get_user_by_email, h]

/-- Helper: overwriting the refresh token of the row that both the
username lookup and the email lookup resolve to makes the username
lookup in the updated table return that row with the new token. -/
theorem find_after_set_refresh (uname : String) (user : User) (tok : Token) :
    ∀ db : UsersDb,
      get_user_by_username db uname = some user →
      get_user_by_email db user.email = some user →
      get_user_by_username (setUserRefreshToken db user.email tok) uname
        = some { user with refresh_token := some tok } := by
  intro db
  induction db with
  | nil => intro hu _; simp [get_user_by_username, List.find?] at hu
  | cons v rest ih =>
    intro hu he
    have hu' : List.find? (fun u => u.username == uname) (v :: rest) = some user := hu
    have huname0 := List.find?_some hu'
    have huname : (user.username == uname) = true := huname0
    rw [get_user_by_username_cons] at hu
    rw [get_user_by_email_cons] at he
    by_cases hvem : (v.email == user.email) = true
    · rw [if_pos hvem] at he
      have hveq : v = user := Option.some.inj he
      subst hveq
      have hset : setUserRefreshToken (v :: rest) v.email tok
          = { v with refresh_token := some tok } :: rest := by
        simp [setUserRefreshToken]
      rw [hset, get_user_by_username_cons]
      simp [huname]
    · have hvu : ¬ ((v.username == uname) = true) := by
        intro h
        rw [if_pos h] at hu
        have hveq : v = user := Option.some.inj hu
        exact hvem (by rw [hveq]; simp)
      rw [if_neg hvu] at hu
      rw [if_neg hvem] at he
      have hrec := ih hu he
      have hset : setUserRefreshToken (v :: rest) user.email tok
          = v :: setUserRefreshToken rest user.email tok := by
        simp [setUserRefreshToken, hvem]
      rw [hset, get_user_by_username_cons, if_neg hvu]
      exact hrec

/-- C1: for every refresh-token validation call, a validly signed,
unexpired refresh-kind token for an existing user that is not equal to
that user's stored current refresh token is rejected with the
credentials exception (HTTP 401); in particular, after a second login
overwrites the stored refresh token through update_refresh_token, the
refresh token issued by the first login is rejected the same way. -/
theorem refresh_rotation_single_active_invariant :
    (∀ (db : UsersDb) (s : Settings) (now : Nat) (rt : Token) (uname : String)
        (user : User),
      rt.sig = s.JWT_SECRET → ¬ rt.exp < now → rt.token_type = some "refresh" →
      rt.sub = some uname →
      get_user_by_username db uname = some user →
      user.refresh_token ≠ some rt →
      verify_refresh_token db s now rt = .error credentials_exception)
    ∧
    (∀ (db : UsersDb) (s : Settings) (now : Nat) (rt1 rt2 : Token)
        (uname : String) (user : User),
      get_user_by_username db uname = some user →
      get_user_by_email db user.email = some user →
      rt1.sig = s.JWT_SECRET → ¬ rt1.exp < now → rt1.token_type = some "refresh" →
      rt1.sub = some uname → rt1 ≠ rt2 →
      ∀ db2 : UsersDb, update_refresh_token db user.email rt2 = .ok db2 →
        verify_refresh_token db2 s now rt1 = .error credentials_exception) := by
  constructor
  · intro db s now rt uname user hsig hexp hkind hsub hfind hmis
    exact verify_refresh_token_mismatch db s now rt uname user hsig hexp hkind hsub hfind hmis
  · intro db s now rt1 rt2 uname user hu he hsig hexp hkind hsub hne db2 hupd
    have hdb2 : setUserRefreshToken db user.email rt2 = db2 := by
      simp [update_refresh_token, he] at hupd
      exact hupd
    subst hdb2
    have hfind2 := find_after_set_refresh uname user rt2 db hu he
    refine verify_refresh_token_mismatch _ s now rt1 uname _ hsig hexp hkind hsub hfind2 ?_
    intro hcontra
    simp only at hcontra
    exact hne (Option.some.inj hcontra).symm

/-- C1 witness: alice logged in twice; her table row stores the first
login's token in aliceDb, then the second login's token after the
update; in both situations presenting the token that does not match the
stored one is rejected. -/
theorem refresh_rotation_single_active_invariant_witness :
    verify_refresh_token aliceDb exSettings 200 aliceRT2
      = .error credentials_exception
    ∧ verify_refresh_token (setUserRefreshToken aliceDb "alice@example.com" aliceRT2)
        exSettings 200 aliceRT1 = .error credentials_exception :=
  ⟨refresh_rotation_single_active_invariant.1 aliceDb exSettings 200 aliceRT2 "alice"
      { aliceUser with refresh_token := some aliceRT1 }
      (by decide) (by decide) (by decide) (by decide) (by decide) (by decide),
   refresh_rotation_single_active_invariant.2 aliceDb exSettings 200 aliceRT1 aliceRT2
      "alice" { aliceUser with refresh_token := some aliceRT1 }
      (by decide) (by decide) (by decide) (by decide) (by decide) (by decide) (by decide)
      (setUserRefreshToken aliceDb "alice@example.com" aliceRT2) (by decide)⟩

/-- C2 amended, witness. -/
theorem cache_deserialize_failure_propagates_witness :
    get_current_user [bobUser] junkCacheForBob exSettings 20 bobAccessToken
      = ⟨.error .deserializationError, 0, [], junkCacheForBob⟩ :=
  cache_deserialize_failure_propagates [bobUser] junkCacheForBob exSettings 20
    bobAccessToken "bob" "garbage" (by decide) (by decide) (by decide) (by decide)

/-- Helper: a cache hit with a deserializable entry answers from the
cache with no store lookup and no cache write. -/
theorem gcu_cache_hit (db : UsersDb) (cache : Cache) (s : Settings) (now : Nat)
    (tok : Token) (uname : String) (u : User)
    (hsig : tok.sig = s.JWT_SECRET) (hexp : ¬ tok.exp < now)
    (hsub : tok.sub = some uname)
    (hget : cacheGet cache now uname = some (serialize_user u)) :
    get_current_user db cache s now tok = ⟨.ok u, 0, [], cache⟩ := by
  simp [get_current_user, jwtDecode, hsig, hexp, hsub, hget, serialize_user,
    deserialize_user]

/-- Helper: a freshly written cache entry is found before its expiry. -/
theorem cacheGet_cacheSet_fresh (cache : Cache) (k : String) (v : CachedJson)
    (now2 expireAt : Nat) (h : now2 < expireAt) :
    cacheGet (cacheSet cache k v expireAt) now2 k = some v := by
  simp [cacheGet, cacheSet, h]

/-- C6 counterexample: with a valid token for alice and a cache entry for
alice that fails to deserialize, the call performs zero store lookups and
returns an error, refuting the claim that in every non-hit situation
exactly one store lookup runs and the identity is returned. -/
theorem cache_fill_junk_entry_cex :
    (get_current_user [aliceUser] junkCacheForAlice exSettings 10 aliceAccessToken).storeLookups = 0
    ∧ (get_current_user [aliceUser] junkCacheForAlice exSettings 10 aliceAccessToken).result
        = .error .deserializationError := by
  decide

/-- C6 amended: for a call whose token decodes with a subject: a cache
hit on a deserializable entry returns that identity with zero store
lookups and no cache write; when the cache holds no live entry for the
subject and the store has the user, exactly one store lookup and exactly
one cache put with TTL 3600 happen before the identity is returned; and
a second call within that TTL on the resulting cache performs zero
further store lookups.  (A cached entry that fails to deserialize
instead makes the call fail with zero store lookups.) -/
theorem cache_fill_behavior :
    (∀ (db : UsersDb) (cache : Cache) (s : Settings) (now : Nat) (tok : Token)
        (uname : String) (u : User),
      tok.sig = s.JWT_SECRET → ¬ tok.exp < now → tok.sub = some uname →
      cacheGet cache now uname = some (serialize_user u) →
      get_current_user db cache s now tok = ⟨.ok u, 0, [], cache⟩)
    ∧
    (∀ (db : UsersDb) (cache : Cache) (s : Settings) (now : Nat) (tok : Token)
        (uname : String) (user : User),
      tok.sig = s.JWT_SECRET → ¬ tok.exp < now → tok.sub = some uname →
      cacheGet cache now uname = none →
      get_user_by_username db uname = some user →
      get_current_user db cache s now tok
        = ⟨.ok user, 1, [(uname, serialize_user user, 3600)],
            cacheSet cache uname (serialize_user user) (now + 3600)⟩)
    ∧
    (∀ (db2 : UsersDb) (cache : Cache) (s : Settings) (now now2 : Nat)
        (tok2 : Token) (uname : String) (user : User),
      tok2.sig = s.JWT_SECRET → ¬ tok2.exp < now2 → tok2.sub = some uname →
      now2 < now + 3600 →
      get_current_user db2 (cacheSet cache uname (serialize_user user) (now + 3600))
          s now2 tok2
        = ⟨.ok user, 0, [], cacheSet cache uname (serialize_user user) (now + 3600)⟩) := by
  refine ⟨?_, ?_, ?_⟩
  · intro db cache s now tok uname u hsig hexp hsub hget
    exact gcu_cache_hit db cache s now tok uname u hsig hexp hsub hget
  · intro db cache s now tok uname user hsig hexp hsub hget hfind
    simp [get_current_user, jwtDecode, hsig, hexp, hsub, hget, hfind]
  · intro db2 cache s now now2 tok2 uname user hsig hexp hsub httl
    exact gcu_cache_hit db2 _ s now2 tok2 uname user hsig hexp hsub
      (cacheGet_cacheSet_fresh cache uname (serialize_user user) now2 (now + 3600) httl)

/-- C6 amended, witness: the three parts at concrete inputs — a hit on
alice's cached row, a fill from an empty cache, and a second call at a
later instant within the TTL on the cache the fill produced. -/
theorem cache_fill_behavior_witness :
    get_current_user [aliceUser] goodCacheForAlice exSettings 10 aliceAccessToken
      = ⟨.ok aliceUser, 0, [], goodCacheForAlice⟩
    ∧ get_current_user [aliceUser] [] exSettings 10 aliceAccessToken
      = ⟨.ok aliceUser, 1, [("alice", serialize_user aliceUser, 3600)],
          cacheSet [] "alice" (serialize_user aliceUser) 3610⟩
    ∧ get_current_user [aliceUser] (cacheSet [] "alice" (serialize_user aliceUser) 3610)
        exSettings 20 aliceAccessToken
      = ⟨.ok aliceUser, 0, [], cacheSet [] "alice" (serialize_user aliceUser) 3610⟩ :=
  ⟨cache_fill_behavior.1 [aliceUser] goodCacheForAlice exSettings 10 aliceAccessToken
      "alice" aliceUser (by decide) (by decide) (by decide) (by decide),
   cache_fill_behavior.2.1 [aliceUser] [] exSettings 10 aliceAccessToken "alice"
      aliceUser (by decide) (by decide) (by decide) (by decide) (by decide),
   cache_fill_behavior.2.2 [aliceUser] [] exSettings 10 20 aliceAccessToken
      "alice" aliceUser (by decide) (by decide) (by decide) (by decide)⟩

/-- Helper: decoding succeeds on a token signed with the same secret
whose expiry the clock has not passed. -/
theorem jwtDecode_ok (tok : Token) (secret : String) (now : Nat)
    (hsig : tok.sig = secret) (hexp : ¬ tok.exp < now) :
    jwtDecode tok secret now = .ok tok := by
  simp [jwtDecode, hsig, hexp]

/-- Helper: decoding fails once the clock is past the expiry claim. -/
theorem jwtDecode_expired_of_lt (tok : Token) (secret : String) (now : Nat)
    (hsig : tok.sig = secret) (hexp : tok.exp < now) :
    jwtDecode tok secret now = .error .expiredSignature := by
  simp [jwtDecode, hsig, hexp]

/-- Helper: an access token never expires before its issue instant. -/
theorem create_access_token_now_le_exp (s : Settings) (now : Nat)
    (data_sub : Option String) (expires_delta : Option Nat) :
    now ≤ (create_access_token s now data_sub expires_delta).exp := by
  cases expires_delta with
  | none => exact Nat.le_add_right _ _
  | some d =>
    by_cases hd : d = 0
    · show now ≤ if d ≠ 0 then now + d else now + s.JWT_EXPIRATION_SECONDS
      rw [if_neg (by simp [hd])]
      exact Nat.le_add_right _ _
    · show now ≤ if d ≠ 0 then now + d else now + s.JWT_EXPIRATION_SECONDS
      rw [if_pos hd]
      exact Nat.le_add_right _ _

/-- C8: decoding an access token with the issuing secret immediately
after issue (same clock instant) succeeds and the subject claim is the
one issued; decoding the same token at any instant past its expiry
fails with the expired-signature error. -/
theorem access_token_roundtrip (s : Settings) (now : Nat) (sub : String)
    (expires_delta : Option Nat) :
    (jwtDecode (create_access_token s now (some sub) expires_delta) s.JWT_SECRET now
        = .ok (create_access_token s now (some sub) expires_delta)
      ∧ (create_access_token s now (some sub) expires_delta).sub = some sub)
    ∧ ∀ later : Nat,
        (create_access_token s now (some sub) expires_delta).exp < later →
        jwtDecode (create_access_token s now (some sub) expires_delta) s.JWT_SECRET later
          = .error .expiredSignature := by
  refine ⟨⟨?_, rfl⟩, ?_⟩
  · exact jwtDecode_ok _ _ _ rfl
      (Nat.not_lt.mpr (create_access_token_now_le_exp s now (some sub) expires_delta))
  · intro later hlater
    exact jwtDecode_expired_of_lt _ _ _ rfl hlater

/-- C8 witness: issue for alice at instant 0, decode at 0, then decode
long after the 3600-second default expiry. -/
theorem access_token_roundtrip_witness :
    jwtDecode (create_access_token exSettings 0 (some "alice") none)
        exSettings.JWT_SECRET 0
      = .ok (create_access_token exSettings 0 (some "alice") none)
    ∧ jwtDecode (create_access_token exSettings 0 (some "alice") none)
        exSettings.JWT_SECRET 99999
      = .error .expiredSignature :=
  ⟨(access_token_roundtrip exSettings 0 "alice" none).1.1,
   (access_token_roundtrip exSettings 0 "alice" none).2 99999 (by decide)⟩

/-- Helper: inverting a successful refresh validation: the verified
user's username is the token's subject, and the user's stored refresh
token equals the presented token. -/
theorem verify_refresh_token_ok_inv (db : UsersDb) (s : Settings) (now : Nat)
    (rt : Token) (user : User)
    (h : verify_refresh_token db s now rt = .ok user) :
    rt.sub = some user.username ∧ user.refresh_token = some rt := by
  unfold verify_refresh_token at h
  split at h
  · exact Except.noConfusion h
  · rename_i payload hdec
    have hpay : payload = rt := by
      unfold jwtDecode at hdec
      by_cases h1 : rt.sig ≠ s.JWT_SECRET
      · rw [if_pos h1] at hdec; exact Except.noConfusion hdec
      · rw [if_neg h1] at hdec
        by_cases h2 : rt.exp < now
        · rw [if_pos h2] at hdec; exact Except.noConfusion hdec
        · rw [if_neg h2] at hdec; exact (Except.ok.inj hdec).symm
    subst hpay
    split at h
    · exact Except.noConfusion h
    · rename_i uname hsub
      split at h
      · exact Except.noConfusion h
      · rename_i hkind
        split at h
        · exact Except.noConfusion h
        · rename_i u hfind
          split at h
          · exact Except.noConfusion h
          · rename_i hmis
            have huser : u = user := Except.ok.inj h
            have hfind' : List.find? (fun w => w.username == uname) db = some u := hfind
            have hub := List.find?_some hfind'
            have hun : (u.username == uname) = true := hub
            have huneq : u.username = uname := eq_of_beq hun
            subst huser
            exact ⟨by rw [hsub, huneq], not_not.mp hmis⟩

/-- C9: whenever the refresh endpoint succeeds, the response carries a
fresh access token (kind access, issued now, signed with the configured
secret, subject equal to the presented token's subject) together with
the very refresh token presented, and the users table is unchanged. -/
theorem refresh_response_preserves_token (db : UsersDb) (s : Settings) (now : Nat)
    (rt : Token) (tm : TokenModel) (db2 : UsersDb)
    (h : new_token db s now rt = .ok (tm, db2)) :
    tm.refresh_token = rt ∧ db2 = db ∧ tm.token_type = "bearer"
    ∧ tm.access_token.sub = rt.sub
    ∧ tm.access_token.token_type = some "access"
    ∧ tm.access_token.iat = now
    ∧ tm.access_token.sig = s.JWT_SECRET := by
  unfold new_token at h
  split at h
  · exact Except.noConfusion h
  · rename_i user hver
    have hsubeq := (verify_refresh_token_ok_inv db s now rt user hver).1
    have hp := Except.ok.inj h
    injection hp with h1 h2
    subst h1
    subst h2
    exact ⟨rfl, rfl, rfl, hsubeq.symm, rfl, rfl, rfl⟩

/-- C9 witness: alice refreshes with her stored token at instant 200. -/
theorem refresh_response_preserves_token_witness :
    ({ access_token := create_access_token exSettings 200 (some "alice") none,
       refresh_token := aliceRT1, token_type := "bearer" } : TokenModel).refresh_token
        = aliceRT1
    ∧ aliceDb = aliceDb
    ∧ ({ access_token := create_access_token exSettings 200 (some "alice") none,
         refresh_token := aliceRT1, token_type := "bearer" } : TokenModel).token_type
        = "bearer"
    ∧ (create_access_token exSettings 200 (some "alice") none).sub = aliceRT1.sub
    ∧ (create_access_token exSettings 200 (some "alice") none).token_type = some "access"
    ∧ (create_access_token exSettings 200 (some "alice") none).iat = 200
    ∧ (create_access_token exSettings 200 (some "alice") none).sig
        = exSettings.JWT_SECRET :=
  refresh_response_preserves_token aliceDb exSettings 200 aliceRT1
    { access_token := create_access_token exSettings 200 (some "alice") none,
      refresh_token := aliceRT1, token_type := "bearer" } aliceDb (by decide)

/-- C10: under pytest the generator returns the fixed string; otherwise,
provided the four class draws come from their alphabets, the six filler
draws number six, and the shuffle permutes its input, the password has
length exactly 10 and contains at least one lowercase letter, one
uppercase letter, one digit and one character of the special pool. -/
theorem temp_password_properties :
    (∀ (lower upper digit symbol : Char) (other_chars : List Char)
        (shuffle : List Char → List Char),
      generate_temp_password true lower upper digit symbol other_chars shuffle
        = "TestTest2!")
    ∧
    (∀ (lower upper digit symbol : Char) (other_chars : List Char)
        (shuffle : List Char → List Char),
      lower ∈ ascii_lowercase → upper ∈ ascii_uppercase → digit ∈ ascii_digits →
      symbol ∈ temp_symbols → other_chars.length = 6 →
      (shuffle ([lower, upper, digit, symbol] ++ other_chars)).Perm
        ([lower, upper, digit, symbol] ++ other_chars) →
      (generate_temp_password false lower upper digit symbol other_chars shuffle).length
          = 10
      ∧ (∃ c ∈ (generate_temp_password false lower upper digit symbol other_chars
            shuffle).data, c ∈ ascii_lowercase)
      ∧ (∃ c ∈ (generate_temp_password false lower upper digit symbol other_chars
            shuffle).data, c ∈ ascii_uppercase)
      ∧ (∃ c ∈ (generate_temp_password false lower upper digit symbol other_chars
            shuffle).data, c ∈ ascii_digits)
      ∧ (∃ c ∈ (generate_temp_password false lower upper digit symbol other_chars
            shuffle).data, c ∈ temp_symbols)) := by
  constructor
  · intro lower upper digit symbol other_chars shuffle
    rfl
  · intro lower upper digit symbol other_chars shuffle hl hu hd hs hlen hperm
    have hlow : lower ∈ ([lower, upper, digit, symbol] ++ other_chars) := by simp
    have hup : upper ∈ ([lower, upper, digit, symbol] ++ other_chars) := by simp
    have hdig : digit ∈ ([lower, upper, digit, symbol] ++ other_chars) := by simp
    have hsym : symbol ∈ ([lower, upper, digit, symbol] ++ other_chars) := by simp
    refine ⟨?_, ⟨lower, hperm.mem_iff.mpr hlow, hl⟩, ⟨upper, hperm.mem_iff.mpr hup, hu⟩,
      ⟨digit, hperm.mem_iff.mpr hdig, hd⟩, ⟨symbol, hperm.mem_iff.mpr hsym, hs⟩⟩
    show (shuffle ([lower, upper, digit, symbol] ++ other_chars)).length = 10
    rw [hperm.length_eq, List.length_append, hlen]
    rfl

/-- C10 witness: the pytest branch at arbitrary concrete draws, and the
non-pytest branch with concrete draws and the identity shuffle. -/
theorem temp_password_properties_witness :
    generate_temp_password true 'x' 'Y' '7' '?' [] id = "TestTest2!"
    ∧ ((generate_temp_password false 'a' 'A' '0' '@' "bcdefg".data id).length = 10
      ∧ (∃ c ∈ (generate_temp_password false 'a' 'A' '0' '@' "bcdefg".data id).data,
          c ∈ ascii_lowercase)
      ∧ (∃ c ∈ (generate_temp_password false 'a' 'A' '0' '@' "bcdefg".data id).data,
          c ∈ ascii_uppercase)
      ∧ (∃ c ∈ (generate_temp_password false 'a' 'A' '0' '@' "bcdefg".data id).data,
          c ∈ ascii_digits)
      ∧ (∃ c ∈ (generate_temp_password false 'a' 'A' '0' '@' "bcdefg".data id).data,
          c ∈ temp_symbols)) :=
  ⟨temp_password_properties.1 'x' 'Y' '7' '?' [] id,
   temp_password_properties.2 'a' 'A' '0' '@' "bcdefg".data id (by decide) (by decide)
     (by decide) (by decide) (by decide) (List.Perm.refl _)⟩

/-- C4 counterexample: the forget-password endpoint answers 401 for a
registered unconfirmed address but the fixed message for an unregistered
one, and the request-email endpoint answers 400 for a registered
confirmed address but the fixed message for an unregistered one, so the
responses are not identical regardless of registration. -/
theorem endpoint_message_distinguishes_cex :
    forget_password [carolUser] (fun p => p) "Temp1234" "carol@example.com"
      = .error (.httpException 401 "Email is not confirmed")
    ∧ forget_password [] (fun p => p) "Temp1234" "carol@example.com"
      = .ok ⟨"If this user exists in our database, we have sent them an email with temporary password", [], []⟩
    ∧ request_email [daveUser] "http://testserver/" "dave@example.com"
      = .error (.httpException 400 "Email is already confirmed")
    ∧ request_email [] "http://testserver/" "dave@example.com"
      = .ok ⟨"If this user exists in our database, we have sent them a confirmation email", [], []⟩ := by
  decide

/-- C4 amended: the two endpoints return their fixed message uniformly
over the cases that do not raise: forget_password whenever the address
is unregistered or belongs to a confirmed user, request_email whenever
the address is unregistered or belongs to an unconfirmed user — so
within those classes the caller cannot distinguish registration; but a
registered unconfirmed address is revealed by forget_password through
HTTP 401 and a registered confirmed address by request_email through
HTTP 400. -/
theorem endpoint_message_uniform (db : UsersDb) :
    (∀ (hashPw : String → String) (gen email : String),
      (get_user_by_email db email = none
        ∨ ∃ u, get_user_by_email db email = some u ∧ u.confirmed = true) →
      responseMessage (forget_password db hashPw gen email)
        = .ok "If this user exists in our database, we have sent them an email with temporary password")
    ∧ (∀ (host email : String),
      (get_user_by_email db email = none
        ∨ ∃ u, get_user_by_email db email = some u ∧ u.confirmed = false) →
      responseMessage (request_email db host email)
        = .ok "If this user exists in our database, we have sent them a confirmation email") := by
  constructor
  · intro hashPw gen email hcase
    rcases hcase with hnone | ⟨u, hu, hconf⟩
    · simp [forget_password, hnone, responseMessage, Except.map]
    · have hupd : update_hashed_password db email (hashPw gen)
          = .ok (setUserHashedPassword db email (hashPw gen)) := by
        simp [update_hashed_password, hu]
      simp [forget_password, hu, hconf, hupd, responseMessage, Except.map]
  · intro host email hcase
    rcases hcase with hnone | ⟨u, hu, hconf⟩
    · simp [request_email, hnone, responseMessage, Except.map]
    · simp [request_email, hu, hconf, responseMessage, Except.map]

/-- C4 amended, witness: an unregistered address at each endpoint. -/
theorem endpoint_message_uniform_witness :
    responseMessage (forget_password [] (fun p => p) "Temp1234" "ghost@example.com")
      = .ok "If this user exists in our database, we have sent them an email with temporary password"
    ∧ responseMessage (request_email [daveUser] "http://testserver/" "ghost@example.com")
      = .ok "If this user exists in our database, we have sent them a confirmation email" :=
  ⟨(endpoint_message_uniform []).1 (fun p => p) "Temp1234" "ghost@example.com"
      (Or.inl (by decide)),
   (endpoint_message_uniform [daveUser]).2 "http://testserver/" "ghost@example.com"
      (Or.inl (by decide))⟩

end PythonFinal
